import Mathlib

/-!
# Verification of the useEventSource stream session controller

A shallow embedding of the React hook in src/use-eventsource (the
draft with retry backoff, visibility pause and Last-Event-ID handling).
The hook's session state (React useState values plus the mutable refs)
becomes an explicit `Session` record, and every way the session can be
driven — the imperative controls start/close/reconnect, the four
transport callbacks delivered by fetchEventSource, the visibilitychange
handler, and the firing of a scheduled retry timeout — becomes a `step`
of a state machine.

Transport attempts are identified by the `AbortController` that owns
them, numbered in creation order (`nextId` is the next fresh number).
The transport adapter contract (fetchEventSource): once an attempt's
outer signal is aborted, the adapter stops invoking callbacks for it,
and after the hook's onclose callback runs, or an onerror callback
throws, the adapter disposes the attempt and delivers nothing further
(tracked in `dead`).  A callback event for attempt `k` therefore only
has an effect while `k` is the current attempt and neither aborted nor
dead (`callbackLive`).

A trace models one mounted hook whose configuration options are held
fixed.  Under fixed options the useCallback dependency list of `start`
(url, init, customFetch, withCredentials, retryIntervalMs,
maxRetryIntervalMs — note: not lastEventId) never changes, so React
returns the closure memoized at mount for the whole trace; the
`lastEventId` value that closure captured is the mount-time value,
recorded separately as `startCaptured`.
-/

namespace ReactEventSource

/-- A decoded server-sent message as delivered by the transport adapter
(the `EventSourceMessage` of the fetch-event-source interface): a
resumption identifier, an event name and a data payload.  `id = none`
models an absent identifier (the TypeScript `undefined` read through
the nullish coalescing `message.id ?? ""` in the hook's onmessage). -/
structure EventSourceMessage where
  id : Option String
  event : String
  data : String
deriving DecidableEq

/-- The hook options that the session state machine reads
(`UseEventSourceOptions`): the retry policy — `retryIntervalMs` is the
base backoff interval, absent (`none`) meaning no retry policy, and
`maxRetryIntervalMs` the optional cap (`maxRetryIntervalMs ?? Infinity`
in the source) — and the `pauseOnHidden` flag. -/
structure UseEventSourceOptions where
  retryIntervalMs : Option Nat
  maxRetryIntervalMs : Option Nat
  pauseOnHidden : Bool
deriving DecidableEq

/-- A pending `setTimeout` handle scheduled by the hook's onerror: the
closure captures the `AbortController` of the attempt that failed
(`guard`; the timer body runs `start()` only if that controller's
signal is not aborted) and the computed backoff `delay` in ms. -/
structure RetryTimer where
  guard : Nat
  delay : Nat
deriving DecidableEq

/-- The whole session state of one mounted hook: the four useState
values (`readyState`, `lastEventId`, `error`, `events`), the refs
(`current` = controllerRef as the id of the current AbortController,
`retryCount` = retryCountRef), the set of aborted controller ids, the
set of attempts disposed by the transport (`dead`), the next fresh
controller id, the pending retry timers, the `lastEventId` value
captured by the memoized `start` closure (`startCaptured`), the headers
of the most recent request built by `start` (`lastRequestHeaders`), the
observed calls to the caller-supplied observers, and the errors
rethrown out of the onerror callback (`thrown`). -/
structure Session where
  readyState : Nat
  lastEventId : String
  error : Option String
  events : List EventSourceMessage
  retryCount : Nat
  current : Option Nat
  aborted : List Nat
  dead : List Nat
  nextId : Nat
  timers : List RetryTimer
  startCaptured : String
  lastRequestHeaders : Option (List (String × String))
  openCalls : List String
  messageCalls : List EventSourceMessage
  errorCalls : List String
  closeCalls : Nat
  thrown : List String
deriving DecidableEq

/-- Header construction in `start`: the normalized existing headers,
with `Last-Event-ID` added exactly when the closure's `lastEventId`
value is truthy (a JavaScript string is truthy iff non-empty). -/
def buildHeaders (existing : List (String × String)) (lastEventId : String) :
    List (String × String) :=
  if lastEventId = "" then existing
  else existing ++ [("Last-Event-ID", lastEventId)]

/-- `controllerRef.current?.abort()`: mark the current controller, if
any, as aborted. -/
def abortCurrent (s : Session) : Session :=
  match s.current with
  | none => s
  | some k => { s with aborted := k :: s.aborted }

/-- `start()`: abort the existing connection if any, create a fresh
`AbortController` and store it in the ref, set readyState to 0
(CONNECTING), build the request headers from the memoized closure's
captured `lastEventId`, and launch the transport attempt. -/
def startOp (h0 : List (String × String)) (s : Session) : Session :=
  let s1 := abortCurrent s
  { s1 with
      current := some s1.nextId
      nextId := s1.nextId + 1
      readyState := 0
      lastRequestHeaders := some (buildHeaders h0 s1.startCaptured) }

/-- Whether the transport adapter still delivers callbacks for attempt
`k`: it must be the attempt held by the ref, its controller not
aborted, and the attempt not disposed by the adapter. -/
def callbackLive (s : Session) (k : Nat) : Bool :=
  decide (s.current = some k ∧ k ∉ s.aborted ∧ k ∉ s.dead)

/-- Transport `onopen` callback of attempt `k`: set readyState to 1
(OPEN), reset retryCountRef to 0, invoke the caller's open observer
with the response metadata. -/
def onopenOp (k : Nat) (resp : String) (s : Session) : Session :=
  if callbackLive s k = true then
    { s with
        readyState := 1
        retryCount := 0
        openCalls := s.openCalls ++ [resp] }
  else s

/-- Transport `onmessage` callback of attempt `k`: set lastEventId to
`message.id ?? ""`, append the message to the events list, invoke the
caller's message observer. -/
def onmessageOp (k : Nat) (m : EventSourceMessage) (s : Session) : Session :=
  if callbackLive s k = true then
    { s with
        lastEventId := m.id.getD ""
        events := s.events ++ [m]
        messageCalls := s.messageCalls ++ [m] }
  else s

/-- The backoff delay computed in onerror:
`Math.min(retryIntervalMs * 2 ** retryCount, maxRetryIntervalMs ?? Infinity)`;
when the cap is absent the min against Infinity is the product itself
(modelled over Nat; the relevant JavaScript numbers are exact
integers). -/
def computeDelay (base : Nat) (cap : Option Nat) (n : Nat) : Nat :=
  match cap with
  | none => base * 2 ^ n
  | some c => min (base * 2 ^ n) c

/-- Transport `onerror` callback of attempt `k`: record the error,
invoke the caller's error observer, set readyState to 2 (CLOSED); then,
if `retryIntervalMs != null`, compute the backoff delay from the
current retryCount, increment retryCount, and schedule a timeout whose
closure captures this attempt's controller; otherwise `throw err`
(recorded in `thrown`; per the adapter contract a throwing onerror
disposes the attempt, so it is marked `dead`). -/
def onerrorOp (opts : UseEventSourceOptions) (k : Nat) (e : String)
    (s : Session) : Session :=
  if callbackLive s k = true then
    let s1 := { s with
        error := some e
        errorCalls := s.errorCalls ++ [e]
        readyState := 2 }
    match opts.retryIntervalMs with
    | some base =>
        { s1 with
            retryCount := s1.retryCount + 1
            timers := s1.timers ++
              [⟨k, computeDelay base opts.maxRetryIntervalMs s1.retryCount⟩] }
    | none =>
        { s1 with thrown := s1.thrown ++ [e], dead := k :: s1.dead }
  else s

/-- Transport `onclose` callback of attempt `k` (clean close): set
readyState to 2 (CLOSED), invoke the caller's close observer; the
adapter then disposes the attempt. -/
def oncloseOp (k : Nat) (s : Session) : Session :=
  if callbackLive s k = true then
    { s with
        readyState := 2
        closeCalls := s.closeCalls + 1
        dead := k :: s.dead }
  else s

/-- `close()`: abort the current controller and set readyState to 2
(CLOSED). -/
def closeOp (s : Session) : Session :=
  { abortCurrent s with readyState := 2 }

/-- The visibilitychange handler when the document becomes hidden:
if pauseOnHidden is enabled, abort the current controller (and nothing
else). -/
def hiddenOp (opts : UseEventSourceOptions) (s : Session) : Session :=
  if opts.pauseOnHidden then abortCurrent s else s

/-- The visibilitychange handler when the document becomes visible:
if pauseOnHidden is enabled, call `start()`. -/
def visibleOp (opts : UseEventSourceOptions) (h0 : List (String × String))
    (s : Session) : Session :=
  if opts.pauseOnHidden then startOp h0 s else s

/-- A scheduled retry timeout firing: the timer is consumed; its body
runs `start()` only when the captured controller's signal is not
aborted (`if (!controller.signal.aborted) start()`). -/
def timerFireOp (h0 : List (String × String)) (i : Nat) (s : Session) :
    Session :=
  match s.timers.get? i with
  | none => s
  | some t =>
      if t.guard ∈ s.aborted then { s with timers := s.timers.eraseIdx i }
      else startOp h0 { s with timers := s.timers.eraseIdx i }

/-- The events that can drive a mounted session: the imperative
controls, the visibility transitions, the transport callbacks of a
given attempt, and the firing of the i-th pending retry timer. -/
inductive Event where
  | start
  | reconnect
  | close
  | hidden
  | visible
  | onopenCb (k : Nat) (resp : String)
  | onmessageCb (k : Nat) (m : EventSourceMessage)
  | onerrorCb (k : Nat) (e : String)
  | oncloseCb (k : Nat)
  | timerFire (i : Nat)
deriving DecidableEq

/-- One step of the session state machine.  `reconnect()` simply calls
`start()`, as in the source. -/
def step (opts : UseEventSourceOptions) (h0 : List (String × String)) :
    Event → Session → Session
  | .start, s => startOp h0 s
  | .reconnect, s => startOp h0 s
  | .close, s => closeOp s
  | .hidden, s => hiddenOp opts s
  | .visible, s => visibleOp opts h0 s
  | .onopenCb k r, s => onopenOp k r s
  | .onmessageCb k m, s => onmessageOp k m s
  | .onerrorCb k e, s => onerrorOp opts k e s
  | .oncloseCb k, s => oncloseOp k s
  | .timerFire i, s => timerFireOp h0 i s

/-- The state before the mount effect runs: readyState 0, empty
lastEventId, no error, no events, retryCount 0, no controller yet. -/
def initialSession : Session :=
  { readyState := 0
    lastEventId := ""
    error := none
    events := []
    retryCount := 0
    current := none
    aborted := []
    dead := []
    nextId := 0
    timers := []
    startCaptured := ""
    lastRequestHeaders := none
    openCalls := []
    messageCalls := []
    errorCalls := []
    closeCalls := 0
    thrown := [] }

/-- The mount effect: `start()` runs once with the mount-time captured
`lastEventId` (the empty string). -/
def mount (h0 : List (String × String)) : Session :=
  startOp h0 initialSession

/-- Run a list of events from a state. -/
def run (opts : UseEventSourceOptions) (h0 : List (String × String))
    (es : List Event) (s : Session) : Session :=
  es.foldl (fun s e => step opts h0 e s) s

/-- The states a mounted session can reach. -/
inductive Reachable (opts : UseEventSourceOptions)
    (h0 : List (String × String)) : Session → Prop
  | mount : Reachable opts h0 (mount h0)
  | next : ∀ {s} (e : Event), Reachable opts h0 s →
      Reachable opts h0 (step opts h0 e s)

/-- Events that go through `start()`: the explicit controls `start` and
`reconnect`, and the visible transition (whose handler calls
`start()`). -/
def isStartish : Event → Bool
  | .start => true
  | .reconnect => true
  | .visible => true
  | _ => false

/-- Whether an event is a transport open callback. -/
def isOpenCb : Event → Bool
  | .onopenCb _ _ => true
  | _ => false

/-- Whether an event is a transport error callback. -/
def isErrorCb : Event → Bool
  | .onerrorCb _ _ => true
  | _ => false

/-- A fixed configuration with the documented backoff example: base
1000 ms, cap 30000 ms, pause on hidden. -/
def opts0 : UseEventSourceOptions :=
  { retryIntervalMs := some 1000
    maxRetryIntervalMs := some 30000
    pauseOnHidden := true }

/-- A configuration with no retry policy (`retryIntervalMs` absent). -/
def optsNoRetry : UseEventSourceOptions :=
  { retryIntervalMs := none
    maxRetryIntervalMs := none
    pauseOnHidden := true }

/-- `n` consecutive onerror callbacks of attempt `k`, each carrying the
error value `e`, delivered in sequence (the transport adapter retries
the fetch internally after a non-throwing onerror, so the same attempt
can error repeatedly). -/
def iterErrors (opts : UseEventSourceOptions) (k : Nat) (e : String) :
    Nat → Session → Session
  | 0, s => s
  | n + 1, s => onerrorOp opts k e (iterErrors opts k e n s)

/-- Every pending retry timer's guard controller is either already
aborted or the currently held controller: a timer is always scheduled
by the current attempt's onerror, and any supersession of that attempt
aborts its controller first. -/
def TimersGuarded (s : Session) : Prop :=
  ∀ t ∈ s.timers, t.guard ∈ s.aborted ∨ s.current = some t.guard

/-- Cancel-then-replace discipline: every controller ever created
(`k < nextId`) that is not aborted is the one currently held — at most
one transport attempt is outstanding at any instant. -/
def OneOutstanding (s : Session) : Prop :=
  ∀ k, k < s.nextId → k ∉ s.aborted → s.current = some k

/-- The conjunction of the structural invariants. -/
def Inv (s : Session) : Prop := TimersGuarded s ∧ OneOutstanding s

/-- A session in which nothing can reconnect on its own: every pending
timer's guard is aborted and no attempt still delivers callbacks. -/
def Quiescent (s : Session) : Prop :=
  (∀ t ∈ s.timers, t.guard ∈ s.aborted) ∧
  (∀ k, callbackLive s k = false)

/-! ## Basic facts about the operations -/

theorem callbackLive_iff (s : Session) (k : Nat) :
    callbackLive s k = true ↔
      s.current = some k ∧ k ∉ s.aborted ∧ k ∉ s.dead := by
  simp [callbackLive]

@[simp] theorem abortCurrent_readyState (s : Session) :
    (abortCurrent s).readyState = s.readyState := by
  unfold abortCurrent; cases s.current <;> rfl

@[simp] theorem abortCurrent_lastEventId (s : Session) :
    (abortCurrent s).lastEventId = s.lastEventId := by
  unfold abortCurrent; cases s.current <;> rfl

@[simp] theorem abortCurrent_error (s : Session) :
    (abortCurrent s).error = s.error := by
  unfold abortCurrent; cases s.current <;> rfl

@[simp] theorem abortCurrent_events (s : Session) :
    (abortCurrent s).events = s.events := by
  unfold abortCurrent; cases s.current <;> rfl

@[simp] theorem abortCurrent_retryCount (s : Session) :
    (abortCurrent s).retryCount = s.retryCount := by
  unfold abortCurrent; cases s.current <;> rfl

@[simp] theorem abortCurrent_current (s : Session) :
    (abortCurrent s).current = s.current := by
  unfold abortCurrent; cases h : s.current <;> simp [h]

@[simp] theorem abortCurrent_dead (s : Session) :
    (abortCurrent s).dead = s.dead := by
  unfold abortCurrent; cases s.current <;> rfl

@[simp] theorem abortCurrent_nextId (s : Session) :
    (abortCurrent s).nextId = s.nextId := by
  unfold abortCurrent; cases s.current <;> rfl

@[simp] theorem abortCurrent_timers (s : Session) :
    (abortCurrent s).timers = s.timers := by
  unfold abortCurrent; cases s.current <;> rfl

@[simp] theorem abortCurrent_startCaptured (s : Session) :
    (abortCurrent s).startCaptured = s.startCaptured := by
  unfold abortCurrent; cases s.current <;> rfl

@[simp] theorem abortCurrent_openCalls (s : Session) :
    (abortCurrent s).openCalls = s.openCalls := by
  unfold abortCurrent; cases s.current <;> rfl

@[simp] theorem abortCurrent_messageCalls (s : Session) :
    (abortCurrent s).messageCalls = s.messageCalls := by
  unfold abortCurrent; cases s.current <;> rfl

@[simp] theorem abortCurrent_errorCalls (s : Session) :
    (abortCurrent s).errorCalls = s.errorCalls := by
  unfold abortCurrent; cases s.current <;> rfl

@[simp] theorem abortCurrent_closeCalls (s : Session) :
    (abortCurrent s).closeCalls = s.closeCalls := by
  unfold abortCurrent; cases s.current <;> rfl

@[simp] theorem abortCurrent_thrown (s : Session) :
    (abortCurrent s).thrown = s.thrown := by
  unfold abortCurrent; cases s.current <;> rfl

@[simp] theorem abortCurrent_lastRequestHeaders (s : Session) :
    (abortCurrent s).lastRequestHeaders = s.lastRequestHeaders := by
  unfold abortCurrent; cases s.current <;> rfl

theorem mem_abortCurrent_aborted (s : Session) (x : Nat) :
    x ∈ (abortCurrent s).aborted ↔ x ∈ s.aborted ∨ s.current = some x := by
  unfold abortCurrent
  cases h : s.current with
  | none => simp [h]
  | some k =>
      simp only [h, List.mem_cons, Option.some.injEq]
      constructor
      · rintro (rfl | hx)
        · exact Or.inr rfl
        · exact Or.inl hx
      · rintro (hx | rfl)
        · exact Or.inr hx
        · exact Or.inl rfl

theorem mem_abortCurrent_aborted_of_mem (s : Session) (x : Nat)
    (h : x ∈ s.aborted) : x ∈ (abortCurrent s).aborted :=
  (mem_abortCurrent_aborted s x).2 (Or.inl h)

@[simp] theorem startOp_current (h0 : List (String × String)) (s : Session) :
    (startOp h0 s).current = some s.nextId := by
  simp [startOp]

@[simp] theorem startOp_nextId (h0 : List (String × String)) (s : Session) :
    (startOp h0 s).nextId = s.nextId + 1 := by
  simp [startOp]

@[simp] theorem startOp_readyState (h0 : List (String × String)) (s : Session) :
    (startOp h0 s).readyState = 0 := by
  simp [startOp]

@[simp] theorem startOp_timers (h0 : List (String × String)) (s : Session) :
    (startOp h0 s).timers = s.timers := by
  simp [startOp]

@[simp] theorem startOp_retryCount (h0 : List (String × String)) (s : Session) :
    (startOp h0 s).retryCount = s.retryCount := by
  simp [startOp]

@[simp] theorem startOp_lastEventId (h0 : List (String × String)) (s : Session) :
    (startOp h0 s).lastEventId = s.lastEventId := by
  simp [startOp]

@[simp] theorem startOp_error (h0 : List (String × String)) (s : Session) :
    (startOp h0 s).error = s.error := by
  simp [startOp]

@[simp] theorem startOp_errorCalls (h0 : List (String × String)) (s : Session) :
    (startOp h0 s).errorCalls = s.errorCalls := by
  simp [startOp]

@[simp] theorem startOp_thrown (h0 : List (String × String)) (s : Session) :
    (startOp h0 s).thrown = s.thrown := by
  simp [startOp]

@[simp] theorem startOp_dead (h0 : List (String × String)) (s : Session) :
    (startOp h0 s).dead = s.dead := by
  simp [startOp]

@[simp] theorem startOp_startCaptured (h0 : List (String × String))
    (s : Session) : (startOp h0 s).startCaptured = s.startCaptured := by
  simp [startOp]

@[simp] theorem startOp_lastRequestHeaders (h0 : List (String × String))
    (s : Session) :
    (startOp h0 s).lastRequestHeaders =
      some (buildHeaders h0 s.startCaptured) := by
  simp [startOp]

theorem mem_startOp_aborted (h0 : List (String × String)) (s : Session)
    (x : Nat) :
    x ∈ (startOp h0 s).aborted ↔ x ∈ s.aborted ∨ s.current = some x := by
  have : (startOp h0 s).aborted = (abortCurrent s).aborted := by
    simp [startOp]
  rw [this, mem_abortCurrent_aborted]

@[simp] theorem closeOp_readyState (s : Session) :
    (closeOp s).readyState = 2 := by
  simp [closeOp]

@[simp] theorem closeOp_current (s : Session) :
    (closeOp s).current = s.current := by
  simp [closeOp]

@[simp] theorem closeOp_nextId (s : Session) :
    (closeOp s).nextId = s.nextId := by
  simp [closeOp]

@[simp] theorem closeOp_timers (s : Session) :
    (closeOp s).timers = s.timers := by
  simp [closeOp]

@[simp] theorem closeOp_retryCount (s : Session) :
    (closeOp s).retryCount = s.retryCount := by
  simp [closeOp]

@[simp] theorem closeOp_error (s : Session) :
    (closeOp s).error = s.error := by
  simp [closeOp]

@[simp] theorem closeOp_errorCalls (s : Session) :
    (closeOp s).errorCalls = s.errorCalls := by
  simp [closeOp]

@[simp] theorem closeOp_thrown (s : Session) :
    (closeOp s).thrown = s.thrown := by
  simp [closeOp]

@[simp] theorem closeOp_dead (s : Session) :
    (closeOp s).dead = s.dead := by
  simp [closeOp]

theorem mem_closeOp_aborted (s : Session) (x : Nat) :
    x ∈ (closeOp s).aborted ↔ x ∈ s.aborted ∨ s.current = some x := by
  have : (closeOp s).aborted = (abortCurrent s).aborted := by
    simp [closeOp]
  rw [this, mem_abortCurrent_aborted]

theorem onopenOp_live (k : Nat) (resp : String) (s : Session)
    (h : callbackLive s k = true) :
    onopenOp k resp s =
      { s with
          readyState := 1
          retryCount := 0
          openCalls := s.openCalls ++ [resp] } := by
  simp [onopenOp, h]

theorem onopenOp_not_live (k : Nat) (resp : String) (s : Session)
    (h : callbackLive s k = false) : onopenOp k resp s = s := by
  simp [onopenOp, h]

theorem onmessageOp_live (k : Nat) (m : EventSourceMessage) (s : Session)
    (h : callbackLive s k = true) :
    onmessageOp k m s =
      { s with
          lastEventId := m.id.getD ""
          events := s.events ++ [m]
          messageCalls := s.messageCalls ++ [m] } := by
  simp [onmessageOp, h]

theorem onmessageOp_not_live (k : Nat) (m : EventSourceMessage) (s : Session)
    (h : callbackLive s k = false) : onmessageOp k m s = s := by
  simp [onmessageOp, h]

theorem onerrorOp_live_some (opts : UseEventSourceOptions) (base k : Nat)
    (e : String) (s : Session) (hb : opts.retryIntervalMs = some base)
    (h : callbackLive s k = true) :
    onerrorOp opts k e s =
      { s with
          error := some e
          errorCalls := s.errorCalls ++ [e]
          readyState := 2
          retryCount := s.retryCount + 1
          timers := s.timers ++
            [⟨k, computeDelay base opts.maxRetryIntervalMs s.retryCount⟩] } := by
  simp [onerrorOp, h, hb]

theorem onerrorOp_live_none (opts : UseEventSourceOptions) (k : Nat)
    (e : String) (s : Session) (hb : opts.retryIntervalMs = none)
    (h : callbackLive s k = true) :
    onerrorOp opts k e s =
      { s with
          error := some e
          errorCalls := s.errorCalls ++ [e]
          readyState := 2
          thrown := s.thrown ++ [e]
          dead := k :: s.dead } := by
  simp [onerrorOp, h, hb]

theorem onerrorOp_not_live (opts : UseEventSourceOptions) (k : Nat)
    (e : String) (s : Session) (h : callbackLive s k = false) :
    onerrorOp opts k e s = s := by
  simp [onerrorOp, h]

theorem oncloseOp_live (k : Nat) (s : Session)
    (h : callbackLive s k = true) :
    oncloseOp k s =
      { s with
          readyState := 2
          closeCalls := s.closeCalls + 1
          dead := k :: s.dead } := by
  simp [oncloseOp, h]

theorem oncloseOp_not_live (k : Nat) (s : Session)
    (h : callbackLive s k = false) : oncloseOp k s = s := by
  simp [oncloseOp, h]

/-! ## Structural invariants of reachable sessions -/

theorem inv_abortCurrent (s : Session) (h : Inv s) : Inv (abortCurrent s) := by
  obtain ⟨hT, hO⟩ := h
  constructor
  · intro t ht
    rw [abortCurrent_timers] at ht
    rcases hT t ht with hg | hg
    · exact Or.inl (mem_abortCurrent_aborted_of_mem s _ hg)
    · exact Or.inl ((mem_abortCurrent_aborted s _).2 (Or.inr hg))
  · intro k hk hka
    rw [abortCurrent_nextId] at hk
    rw [abortCurrent_current]
    have hka' : k ∉ s.aborted := fun hm =>
      hka (mem_abortCurrent_aborted_of_mem s _ hm)
    exact hO k hk hka'

theorem inv_startOp (h0 : List (String × String)) (s : Session)
    (h : Inv s) : Inv (startOp h0 s) := by
  obtain ⟨hT, hO⟩ := h
  constructor
  · intro t ht
    rw [startOp_timers] at ht
    rcases hT t ht with hg | hg
    · exact Or.inl ((mem_startOp_aborted h0 s _).2 (Or.inl hg))
    · exact Or.inl ((mem_startOp_aborted h0 s _).2 (Or.inr hg))
  · intro k hk hka
    rw [startOp_nextId] at hk
    rw [startOp_current]
    rcases Nat.lt_succ_iff_lt_or_eq.1 hk with hk' | rfl
    · exfalso
      have hka' : k ∉ s.aborted := fun hm =>
        hka ((mem_startOp_aborted h0 s _).2 (Or.inl hm))
      have hc := hO k hk' hka'
      exact hka ((mem_startOp_aborted h0 s _).2 (Or.inr hc))
    · rfl

theorem inv_closeOp (s : Session) (h : Inv s) : Inv (closeOp s) := by
  have h' := inv_abortCurrent s h
  obtain ⟨hT, hO⟩ := h'
  constructor
  · intro t ht
    rw [closeOp_timers] at ht
    have ht' : t ∈ (abortCurrent s).timers := by rw [abortCurrent_timers]; exact ht
    rcases hT t ht' with hg | hg
    · left
      rw [mem_abortCurrent_aborted] at hg
      exact (mem_closeOp_aborted s _).2 hg
    · right
      rw [abortCurrent_current] at hg
      rw [closeOp_current]
      exact hg
  · intro k hk hka
    rw [closeOp_nextId] at hk
    rw [closeOp_current]
    have hk' : k < (abortCurrent s).nextId := by rw [abortCurrent_nextId]; exact hk
    have hka' : k ∉ (abortCurrent s).aborted := by
      intro hm
      rw [mem_abortCurrent_aborted] at hm
      exact hka ((mem_closeOp_aborted s _).2 hm)
    have := hO k hk' hka'
    rw [abortCurrent_current] at this
    exact this

theorem inv_onerrorOp (opts : UseEventSourceOptions) (k : Nat) (e : String)
    (s : Session) (h : Inv s) : Inv (onerrorOp opts k e s) := by
  obtain ⟨hT, hO⟩ := h
  by_cases hl : callbackLive s k = true
  · have hcur : s.current = some k := ((callbackLive_iff s k).1 hl).1
    cases hb : opts.retryIntervalMs with
    | some base =>
        rw [onerrorOp_live_some opts base k e s hb hl]
        constructor
        · intro t ht
          simp only [List.mem_append, List.mem_singleton] at ht
          rcases ht with ht | rfl
          · exact hT t ht
          · exact Or.inr hcur
        · intro k' hk' hka'
          exact hO k' hk' hka'
    | none =>
        rw [onerrorOp_live_none opts k e s hb hl]
        exact ⟨hT, hO⟩
  · rw [onerrorOp_not_live opts k e s (by simpa using hl)]
    exact ⟨hT, hO⟩

theorem inv_timerFireOp (h0 : List (String × String)) (i : Nat)
    (s : Session) (h : Inv s) : Inv (timerFireOp h0 i s) := by
  obtain ⟨hT, hO⟩ := h
  cases hg : s.timers.get? i with
  | none =>
      simp only [timerFireOp, hg]
      exact ⟨hT, hO⟩
  | some t =>
      have herase : Inv { s with timers := s.timers.eraseIdx i } := by
        constructor
        · intro t' ht'
          exact hT t' (List.eraseIdx_subset _ _ ht')
        · intro k hk hka
          exact hO k hk hka
      simp only [timerFireOp, hg]
      split
      · exact herase
      · exact inv_startOp h0 _ herase

theorem inv_step (opts : UseEventSourceOptions)
    (h0 : List (String × String)) (ev : Event) (s : Session)
    (h : Inv s) : Inv (step opts h0 ev s) := by
  obtain ⟨hT, hO⟩ := h
  cases ev with
  | start => exact inv_startOp h0 s ⟨hT, hO⟩
  | reconnect => exact inv_startOp h0 s ⟨hT, hO⟩
  | close => exact inv_closeOp s ⟨hT, hO⟩
  | hidden =>
      show Inv (hiddenOp opts s)
      unfold hiddenOp
      split
      · exact inv_abortCurrent s ⟨hT, hO⟩
      · exact ⟨hT, hO⟩
  | visible =>
      show Inv (visibleOp opts h0 s)
      unfold visibleOp
      split
      · exact inv_startOp h0 s ⟨hT, hO⟩
      · exact ⟨hT, hO⟩
  | onopenCb k r =>
      show Inv (onopenOp k r s)
      by_cases hl : callbackLive s k = true
      · rw [onopenOp_live k r s hl]
        exact ⟨hT, hO⟩
      · rw [onopenOp_not_live k r s (by simpa using hl)]
        exact ⟨hT, hO⟩
  | onmessageCb k m =>
      show Inv (onmessageOp k m s)
      by_cases hl : callbackLive s k = true
      · rw [onmessageOp_live k m s hl]
        exact ⟨hT, hO⟩
      · rw [onmessageOp_not_live k m s (by simpa using hl)]
        exact ⟨hT, hO⟩
  | onerrorCb k e => exact inv_onerrorOp opts k e s ⟨hT, hO⟩
  | oncloseCb k =>
      show Inv (oncloseOp k s)
      by_cases hl : callbackLive s k = true
      · rw [oncloseOp_live k s hl]
        exact ⟨hT, hO⟩
      · rw [oncloseOp_not_live k s (by simpa using hl)]
        exact ⟨hT, hO⟩
  | timerFire i => exact inv_timerFireOp h0 i s ⟨hT, hO⟩

theorem inv_mount (h0 : List (String × String)) : Inv (mount h0) := by
  constructor
  · intro t ht
    simp [mount, initialSession, startOp, abortCurrent] at ht
  · intro k hk hka
    simp [mount, initialSession, startOp, abortCurrent] at hk ⊢
    omega

theorem reachable_inv (opts : UseEventSourceOptions)
    (h0 : List (String × String)) (s : Session)
    (hr : Reachable opts h0 s) : Inv s := by
  induction hr with
  | mount => exact inv_mount h0
  | next e _ ih => exact inv_step _ _ e _ ih

/-- With no retry policy configured, no retry timer is ever scheduled:
onerror is the only place a timer is created, and it only does so when
`retryIntervalMs != null`. -/
theorem timers_nil_of_no_retry (opts : UseEventSourceOptions)
    (h0 : List (String × String)) (s : Session)
    (hb : opts.retryIntervalMs = none) (hr : Reachable opts h0 s) :
    s.timers = [] := by
  induction hr with
  | mount => simp [mount, initialSession, startOp, abortCurrent]
  | next e hs ih =>
      cases e with
      | start =>
          show (startOp h0 _).timers = []
          rw [startOp_timers]
          exact ih
      | reconnect =>
          show (startOp h0 _).timers = []
          rw [startOp_timers]
          exact ih
      | close =>
          show (closeOp _).timers = []
          rw [closeOp_timers]
          exact ih
      | hidden =>
          show (hiddenOp opts _).timers = []
          unfold hiddenOp
          split
          · rw [abortCurrent_timers]
            exact ih
          · exact ih
      | visible =>
          show (visibleOp opts h0 _).timers = []
          unfold visibleOp
          split
          · rw [startOp_timers]
            exact ih
          · exact ih
      | onopenCb k r =>
          show (onopenOp k r _).timers = []
          unfold onopenOp
          split
          · exact ih
          · exact ih
      | onmessageCb k m =>
          show (onmessageOp k m _).timers = []
          unfold onmessageOp
          split
          · exact ih
          · exact ih
      | onerrorCb k e =>
          show (onerrorOp opts k e _).timers = []
          unfold onerrorOp
          split
          · rw [hb]
            exact ih
          · exact ih
      | oncloseCb k =>
          show (oncloseOp k _).timers = []
          unfold oncloseOp
          split
          · exact ih
          · exact ih
      | timerFire i =>
          show (timerFireOp h0 i _).timers = []
          simp only [timerFireOp, ih, List.get?_nil]

/-- If every pending timer's guard is already aborted, a firing timer
is inert: it only consumes itself, starting nothing. -/
theorem timerFire_inert (h0 : List (String × String)) (i : Nat)
    (s : Session) (hg : ∀ t ∈ s.timers, t.guard ∈ s.aborted) :
    (timerFireOp h0 i s).nextId = s.nextId ∧
    (timerFireOp h0 i s).readyState = s.readyState ∧
    (timerFireOp h0 i s).current = s.current := by
  cases hgi : s.timers.get? i with
  | none =>
      simp only [timerFireOp, hgi]
      exact ⟨trivial, trivial, trivial⟩
  | some t =>
      have ht : t ∈ s.timers := List.get?_mem hgi
      have hta : t.guard ∈ s.aborted := hg t ht
      simp only [timerFireOp, hgi]
      rw [if_pos hta]
      exact ⟨rfl, rfl, rfl⟩

theorem quiescent_step (opts : UseEventSourceOptions)
    (h0 : List (String × String)) (ev : Event) (s : Session)
    (hq : Quiescent s) (hev : isStartish ev = false) :
    Quiescent (step opts h0 ev s) ∧
    (step opts h0 ev s).nextId = s.nextId ∧
    ((step opts h0 ev s).readyState = s.readyState ∨
      (step opts h0 ev s).readyState = 2) := by
  obtain ⟨hg, hl⟩ := hq
  cases ev with
  | start => simp [isStartish] at hev
  | reconnect => simp [isStartish] at hev
  | visible => simp [isStartish] at hev
  | close =>
      show Quiescent (closeOp s) ∧ (closeOp s).nextId = s.nextId ∧
        ((closeOp s).readyState = s.readyState ∨ (closeOp s).readyState = 2)
      refine ⟨⟨?_, ?_⟩, closeOp_nextId s, Or.inr (closeOp_readyState s)⟩
      · intro t ht
        rw [closeOp_timers] at ht
        exact (mem_closeOp_aborted s _).2 (Or.inl (hg t ht))
      · intro k
        rw [← Bool.not_eq_true, callbackLive_iff]
        rintro ⟨hc, hka, -⟩
        rw [closeOp_current] at hc
        exact hka ((mem_closeOp_aborted s _).2 (Or.inr hc))
  | hidden =>
      show Quiescent (hiddenOp opts s) ∧ (hiddenOp opts s).nextId = s.nextId ∧
        ((hiddenOp opts s).readyState = s.readyState ∨
          (hiddenOp opts s).readyState = 2)
      unfold hiddenOp
      split
      · refine ⟨⟨?_, ?_⟩, abortCurrent_nextId s,
          Or.inl (abortCurrent_readyState s)⟩
        · intro t ht
          rw [abortCurrent_timers] at ht
          exact mem_abortCurrent_aborted_of_mem s _ (hg t ht)
        · intro k
          rw [← Bool.not_eq_true, callbackLive_iff]
          rintro ⟨hc, hka, -⟩
          rw [abortCurrent_current] at hc
          exact hka ((mem_abortCurrent_aborted s _).2 (Or.inr hc))
      · exact ⟨⟨hg, hl⟩, rfl, Or.inl rfl⟩
  | onopenCb k r =>
      show Quiescent (onopenOp k r s) ∧ (onopenOp k r s).nextId = s.nextId ∧
        ((onopenOp k r s).readyState = s.readyState ∨
          (onopenOp k r s).readyState = 2)
      rw [onopenOp_not_live k r s (hl k)]
      exact ⟨⟨hg, hl⟩, rfl, Or.inl rfl⟩
  | onmessageCb k m =>
      show Quiescent (onmessageOp k m s) ∧
        (onmessageOp k m s).nextId = s.nextId ∧
        ((onmessageOp k m s).readyState = s.readyState ∨
          (onmessageOp k m s).readyState = 2)
      rw [onmessageOp_not_live k m s (hl k)]
      exact ⟨⟨hg, hl⟩, rfl, Or.inl rfl⟩
  | onerrorCb k e =>
      show Quiescent (onerrorOp opts k e s) ∧
        (onerrorOp opts k e s).nextId = s.nextId ∧
        ((onerrorOp opts k e s).readyState = s.readyState ∨
          (onerrorOp opts k e s).readyState = 2)
      rw [onerrorOp_not_live opts k e s (hl k)]
      exact ⟨⟨hg, hl⟩, rfl, Or.inl rfl⟩
  | oncloseCb k =>
      show Quiescent (oncloseOp k s) ∧ (oncloseOp k s).nextId = s.nextId ∧
        ((oncloseOp k s).readyState = s.readyState ∨
          (oncloseOp k s).readyState = 2)
      rw [oncloseOp_not_live k s (hl k)]
      exact ⟨⟨hg, hl⟩, rfl, Or.inl rfl⟩
  | timerFire i =>
      show Quiescent (timerFireOp h0 i s) ∧
        (timerFireOp h0 i s).nextId = s.nextId ∧
        ((timerFireOp h0 i s).readyState = s.readyState ∨
          (timerFireOp h0 i s).readyState = 2)
      cases hgi : s.timers.get? i with
      | none =>
          simp only [timerFireOp, hgi]
          exact ⟨⟨hg, hl⟩, trivial, Or.inl trivial⟩
      | some t =>
          have ht : t ∈ s.timers := List.get?_mem hgi
          have hta : t.guard ∈ s.aborted := hg t ht
          simp only [timerFireOp, hgi]
          rw [if_pos hta]
          refine ⟨⟨?_, ?_⟩, rfl, Or.inl rfl⟩
          · intro t' ht'
            exact hg t' (List.eraseIdx_subset _ _ ht')
          · intro k
            rw [← Bool.not_eq_true, callbackLive_iff]
            rintro ⟨hc, hka, hkd⟩
            have : callbackLive s k = true :=
              (callbackLive_iff s k).2 ⟨hc, hka, hkd⟩
            rw [hl k] at this
            exact Bool.false_ne_true this

/-- Running any sequence of events none of which goes through
`start()` from a quiescent session never creates a transport attempt,
and leaves the readyState either unchanged or equal to 2. -/
theorem quiescent_run (opts : UseEventSourceOptions)
    (h0 : List (String × String)) (es : List Event) (s : Session)
    (hq : Quiescent s) (hall : ∀ e ∈ es, isStartish e = false) :
    Quiescent (run opts h0 es s) ∧
    (run opts h0 es s).nextId = s.nextId ∧
    ((run opts h0 es s).readyState = s.readyState ∨
      (run opts h0 es s).readyState = 2) := by
  induction es generalizing s with
  | nil => exact ⟨hq, rfl, Or.inl rfl⟩
  | cons e es ih =>
      have he : isStartish e = false := hall e (List.mem_cons_self e es)
      have hrest : ∀ e' ∈ es, isStartish e' = false := fun e' h' =>
        hall e' (List.mem_cons_of_mem e h')
      obtain ⟨hq1, hn1, hr1⟩ := quiescent_step opts h0 e s hq he
      obtain ⟨hq2, hn2, hr2⟩ := ih (step opts h0 e s) hq1 hrest
      refine ⟨hq2, ?_, ?_⟩
      · rw [show run opts h0 (e :: es) s = run opts h0 es (step opts h0 e s)
          from rfl, hn2, hn1]
      · rw [show run opts h0 (e :: es) s = run opts h0 es (step opts h0 e s)
          from rfl]
        rcases hr2 with hr2 | hr2
        · rw [hr2]
          exact hr1
        · exact Or.inr hr2

/-- Delivering an onerror to a live attempt with a retry policy
configured leaves the attempt live: onerror neither aborts nor disposes
the current controller. -/
theorem callbackLive_onerrorOp_some (opts : UseEventSourceOptions)
    (base k : Nat) (e : String) (s : Session)
    (hb : opts.retryIntervalMs = some base)
    (hl : callbackLive s k = true) :
    callbackLive (onerrorOp opts k e s) k = true := by
  rw [onerrorOp_live_some opts base k e s hb hl]
  rw [callbackLive_iff] at hl ⊢
  exact hl

/-- Characterization of `n` consecutive errors on a live attempt with a
retry policy: the attempt stays live, the retry counter advances by
`n`, and one timer per error is appended, the i-th carrying the delay
computed from the pre-increment counter value. -/
theorem iterErrors_spec (opts : UseEventSourceOptions) (base : Nat)
    (hb : opts.retryIntervalMs = some base) (k : Nat) (e : String)
    (n : Nat) (s : Session) (hl : callbackLive s k = true) :
    callbackLive (iterErrors opts k e n s) k = true ∧
    (iterErrors opts k e n s).retryCount = s.retryCount + n ∧
    (iterErrors opts k e n s).timers = s.timers ++
      (List.range n).map
        (fun i =>
          ⟨k, computeDelay base opts.maxRetryIntervalMs
            (s.retryCount + i)⟩) := by
  induction n with
  | zero => simp [iterErrors, hl]
  | succ n ih =>
      obtain ⟨ihl, ihrc, ihtm⟩ := ih
      have hstep := onerrorOp_live_some opts base k e
        (iterErrors opts k e n s) hb ihl
      refine ⟨callbackLive_onerrorOp_some opts base k e _ hb ihl, ?_, ?_⟩
      · show (onerrorOp opts k e (iterErrors opts k e n s)).retryCount = _
        rw [hstep]
        show (iterErrors opts k e n s).retryCount + 1 = s.retryCount + (n + 1)
        rw [ihrc]
        exact rfl
      · show (onerrorOp opts k e (iterErrors opts k e n s)).timers = _
        rw [hstep]
        show (iterErrors opts k e n s).timers ++ _ = _
        rw [ihtm, ihrc, List.range_succ, List.map_append, List.append_assoc]
        exact rfl

/-! ## The claims -/

/-- Claim C1, counterexample: the claim says a message with an absent
identifier leaves the previous `lastEventId` unchanged.  In the code
`setLastEventId(message.id ?? "")` overwrites it with the empty string:
after a message with id "A" followed by a message with no id, the
session's lastEventId is "" rather than "A". -/
theorem C1_counterexample :
    Session.lastEventId
      (run opts0 [] [Event.onmessageCb 0 ⟨some "A", "", "a"⟩] (mount []))
      = "A" ∧
    Session.lastEventId
      (run opts0 [] [Event.onmessageCb 0 ⟨some "A", "", "a"⟩,
        Event.onmessageCb 0 ⟨none, "", "b"⟩] (mount []))
      = "" := by
  exact ⟨rfl, rfl⟩

/-- Claim C1 (amended): for every message delivered by the transport
message callback, `lastEventId` is set to the message's identifier when
one is present, and reset to the empty string when the identifier is
absent (`message.id ?? ""`); the previous value is not preserved.  The
message is appended to the received-messages history either way. -/
theorem C1_amended_lastEventId (k : Nat) (m : EventSourceMessage)
    (s : Session) (hl : callbackLive s k = true) :
    (onmessageOp k m s).lastEventId = m.id.getD "" ∧
    (onmessageOp k m s).events = s.events ++ [m] := by
  rw [onmessageOp_live k m s hl]
  exact ⟨rfl, rfl⟩

/-- Witness for the amended C1 at a concrete input. -/
theorem C1_amended_witness :
    (onmessageOp 0 ⟨none, "", "b"⟩ (mount [])).lastEventId =
      (Option.getD none "") ∧
    (onmessageOp 0 ⟨none, "", "b"⟩ (mount [])).events =
      (mount []).events ++ [⟨none, "", "b"⟩] :=
  C1_amended_lastEventId 0 ⟨none, "", "b"⟩ (mount []) (by decide)

/-- Claim C2: with a retry base interval configured, starting from a
state whose retry counter is 0 (i.e. immediately after a successful
open), delivering `n` consecutive transport errors schedules exactly
one retry per error, the i-th (0-indexed) with delay
`computeDelay base cap i`; the retry counter is incremented after each
delay is computed, ending at `n`.  `computeDelay base (some c) i` is
`min (base * 2 ^ i) c` and with no cap it is `base * 2 ^ i` (the min
against Infinity); with base 1000 and cap 30000 the first seven delays
are 1000, 2000, 4000, 8000, 16000, 30000, 30000. -/
theorem C2_backoff_delays (opts : UseEventSourceOptions) (base : Nat)
    (hb : opts.retryIntervalMs = some base) (k : Nat) (e : String)
    (n : Nat) (s : Session) (hl : callbackLive s k = true)
    (hrc : s.retryCount = 0) :
    (iterErrors opts k e n s).timers = s.timers ++
      (List.range n).map
        (fun i => ⟨k, computeDelay base opts.maxRetryIntervalMs i⟩) ∧
    (iterErrors opts k e n s).retryCount = n ∧
    (∀ c i, computeDelay base (some c) i = min (base * 2 ^ i) c) ∧
    (∀ i, computeDelay base none i = base * 2 ^ i) ∧
    (List.range 7).map (computeDelay 1000 (some 30000)) =
      [1000, 2000, 4000, 8000, 16000, 30000, 30000] := by
  obtain ⟨-, hrc', htm⟩ := iterErrors_spec opts base hb k e n s hl
  rw [hrc] at hrc' htm
  refine ⟨?_, ?_, fun c i => rfl, fun i => rfl, by decide⟩
  · rw [htm]
    simp
  · rw [hrc']
    exact Nat.zero_add n

/-- Witness for C2 at a concrete input: three consecutive errors from
the freshly mounted session under base 1000 / cap 30000. -/
theorem C2_backoff_witness :
    (iterErrors opts0 0 "e" 3 (mount [])).timers = (mount []).timers ++
      (List.range 3).map
        (fun i => ⟨0, computeDelay 1000 opts0.maxRetryIntervalMs i⟩) ∧
    (iterErrors opts0 0 "e" 3 (mount [])).retryCount = 3 ∧
    (∀ c i, computeDelay 1000 (some c) i = min (1000 * 2 ^ i) c) ∧
    (∀ i, computeDelay 1000 none i = 1000 * 2 ^ i) ∧
    (List.range 7).map (computeDelay 1000 (some 30000)) =
      [1000, 2000, 4000, 8000, 16000, 30000, 30000] :=
  C2_backoff_delays opts0 1000 rfl 0 "e" 3 (mount []) (by decide) rfl

/-- Claim C3, counterexample: the claim says the controller never
throws out of the error callback.  With no retry policy configured the
onerror handler executes `throw err`: after a single transport error on
the mounted session the list of errors thrown out of the callback is
["boom"], not empty. -/
theorem C3_counterexample :
    (mount []).thrown = [] ∧
    (onerrorOp optsNoRetry 0 "boom" (mount [])).thrown = ["boom"] := by
  exact ⟨rfl, rfl⟩

/-- Claim C3 (amended): every transport error delivered to the live
attempt is surfaced through the error observer and the CLOSED state
transition, whatever the retry configuration; the error callback never
throws when a retry policy is configured; when no retry policy is
configured the callback rethrows the error (terminating the stream).
No event other than an error callback ever throws. -/
theorem C3_amended_error_propagation (opts : UseEventSourceOptions)
    (h0 : List (String × String)) (k : Nat) (e : String) (s : Session) :
    (callbackLive s k = true →
      (onerrorOp opts k e s).errorCalls = s.errorCalls ++ [e] ∧
      (onerrorOp opts k e s).readyState = 2 ∧
      (onerrorOp opts k e s).error = some e) ∧
    (opts.retryIntervalMs.isSome = true →
      (onerrorOp opts k e s).thrown = s.thrown) ∧
    (opts.retryIntervalMs = none → callbackLive s k = true →
      (onerrorOp opts k e s).thrown = s.thrown ++ [e]) ∧
    (∀ ev, isErrorCb ev = false → (step opts h0 ev s).thrown = s.thrown) := by
  refine ⟨?_, ?_, ?_, ?_⟩
  · intro hl
    cases hbase : opts.retryIntervalMs with
    | some base =>
        rw [onerrorOp_live_some opts base k e s hbase hl]
        exact ⟨rfl, rfl, rfl⟩
    | none =>
        rw [onerrorOp_live_none opts k e s hbase hl]
        exact ⟨rfl, rfl, rfl⟩
  · intro hsome
    obtain ⟨base, hb⟩ := Option.isSome_iff_exists.1 hsome
    by_cases hl : callbackLive s k = true
    · rw [onerrorOp_live_some opts base k e s hb hl]
    · rw [onerrorOp_not_live opts k e s (by simpa using hl)]
  · intro hb hl
    rw [onerrorOp_live_none opts k e s hb hl]
  · intro ev hev
    cases ev with
    | start => exact startOp_thrown h0 s
    | reconnect => exact startOp_thrown h0 s
    | close => exact closeOp_thrown s
    | hidden =>
        show (hiddenOp opts s).thrown = s.thrown
        unfold hiddenOp
        split
        · exact abortCurrent_thrown s
        · rfl
    | visible =>
        show (visibleOp opts h0 s).thrown = s.thrown
        unfold visibleOp
        split
        · exact startOp_thrown h0 s
        · rfl
    | onopenCb k' r =>
        show (onopenOp k' r s).thrown = s.thrown
        by_cases hl : callbackLive s k' = true
        · rw [onopenOp_live k' r s hl]
        · rw [onopenOp_not_live k' r s (by simpa using hl)]
    | onmessageCb k' m =>
        show (onmessageOp k' m s).thrown = s.thrown
        by_cases hl : callbackLive s k' = true
        · rw [onmessageOp_live k' m s hl]
        · rw [onmessageOp_not_live k' m s (by simpa using hl)]
    | onerrorCb k' e' => simp [isErrorCb] at hev
    | oncloseCb k' =>
        show (oncloseOp k' s).thrown = s.thrown
        by_cases hl : callbackLive s k' = true
        · rw [oncloseOp_live k' s hl]
        · rw [oncloseOp_not_live k' s (by simpa using hl)]
    | timerFire i =>
        show (timerFireOp h0 i s).thrown = s.thrown
        cases hgi : s.timers.get? i with
        | none => simp only [timerFireOp, hgi]
        | some t =>
            simp only [timerFireOp, hgi]
            split
            · rfl
            · exact startOp_thrown h0 _

/-- Witness for the amended C3 at concrete inputs: surfacing and the
rethrow with no policy configured, and no throw with a policy
configured. -/
theorem C3_amended_witness :
    ((onerrorOp optsNoRetry 0 "x" (mount [])).errorCalls =
        (mount []).errorCalls ++ ["x"] ∧
      (onerrorOp optsNoRetry 0 "x" (mount [])).readyState = 2 ∧
      (onerrorOp optsNoRetry 0 "x" (mount [])).error = some "x") ∧
    (onerrorOp optsNoRetry 0 "x" (mount [])).thrown =
      (mount []).thrown ++ ["x"] ∧
    (onerrorOp opts0 0 "y" (mount [])).thrown = (mount []).thrown :=
  ⟨(C3_amended_error_propagation optsNoRetry [] 0 "x" (mount [])).1
      (by decide),
   (C3_amended_error_propagation optsNoRetry [] 0 "x" (mount [])).2.2.1
      rfl (by decide),
   (C3_amended_error_propagation opts0 [] 0 "y" (mount [])).2.1 rfl⟩

/-- Claim C4, counterexample: the claim says that on a
visibility-hidden transition the connection state becomes CLOSED (2).
The handler only aborts the controller and never calls setReadyState:
on the mounted session that has opened, the readyState after hidden is
still 1 (OPEN), not 2. -/
theorem C4_counterexample :
    Session.readyState
      (run opts0 [] [Event.onopenCb 0 "resp", Event.hidden] (mount []))
      = 1 ∧
    Session.readyState
      (run opts0 [] [Event.onopenCb 0 "resp", Event.hidden] (mount []))
      ≠ 2 := by
  exact ⟨rfl, by decide⟩

/-- Claim C4 (amended): on a visibility-hidden transition with
hidden-pause enabled, the active transport attempt is aborted — it
delivers no further callbacks — the error observer is not invoked, and
the retry count is unchanged; the connection state is left as it was
(not set to CLOSED).  On a subsequent visibility-visible transition the
handler runs a fresh `start()`, so the state becomes CONNECTING (0) and
every pending backoff timer is neutralized: its guard controller is
aborted, so when it fires it cannot launch a new attempt. -/
theorem C4_amended_visibility (opts : UseEventSourceOptions)
    (h0 : List (String × String)) (s : Session)
    (hp : opts.pauseOnHidden = true) (hr : Reachable opts h0 s) :
    (hiddenOp opts s).readyState = s.readyState ∧
    (hiddenOp opts s).retryCount = s.retryCount ∧
    (hiddenOp opts s).errorCalls = s.errorCalls ∧
    (∀ k, s.current = some k → callbackLive (hiddenOp opts s) k = false) ∧
    (visibleOp opts h0 (hiddenOp opts s)).readyState = 0 ∧
    (∀ t ∈ (visibleOp opts h0 (hiddenOp opts s)).timers,
      t.guard ∈ (visibleOp opts h0 (hiddenOp opts s)).aborted) ∧
    (∀ i, (timerFireOp h0 i (visibleOp opts h0 (hiddenOp opts s))).nextId =
      (visibleOp opts h0 (hiddenOp opts s)).nextId) := by
  obtain ⟨hT, -⟩ := reachable_inv opts h0 s hr
  have hh : hiddenOp opts s = abortCurrent s := by
    simp [hiddenOp, hp]
  have hv : visibleOp opts h0 (hiddenOp opts s) =
      startOp h0 (abortCurrent s) := by
    rw [hh]
    simp [visibleOp, hp]
  have hguards : ∀ t ∈ (visibleOp opts h0 (hiddenOp opts s)).timers,
      t.guard ∈ (visibleOp opts h0 (hiddenOp opts s)).aborted := by
    rw [hv]
    intro t ht
    rw [startOp_timers, abortCurrent_timers] at ht
    rw [mem_startOp_aborted]
    left
    rcases hT t ht with hg | hg
    · exact (mem_abortCurrent_aborted s _).2 (Or.inl hg)
    · exact (mem_abortCurrent_aborted s _).2 (Or.inr hg)
  refine ⟨?_, ?_, ?_, ?_, ?_, hguards, ?_⟩
  · rw [hh, abortCurrent_readyState]
  · rw [hh, abortCurrent_retryCount]
  · rw [hh, abortCurrent_errorCalls]
  · intro k hk
    rw [hh, ← Bool.not_eq_true, callbackLive_iff]
    rintro ⟨-, hka, -⟩
    exact hka ((mem_abortCurrent_aborted s _).2 (Or.inr hk))
  · rw [hv, startOp_readyState]
  · intro i
    exact (timerFire_inert h0 i _ hguards).1

/-- Witness for the amended C4 at a concrete input. -/
theorem C4_amended_witness :
    (hiddenOp opts0 (mount [])).readyState = (mount []).readyState ∧
    (hiddenOp opts0 (mount [])).retryCount = (mount []).retryCount ∧
    (hiddenOp opts0 (mount [])).errorCalls = (mount []).errorCalls ∧
    (∀ k, (mount []).current = some k →
      callbackLive (hiddenOp opts0 (mount [])) k = false) ∧
    (visibleOp opts0 [] (hiddenOp opts0 (mount []))).readyState = 0 ∧
    (∀ t ∈ (visibleOp opts0 [] (hiddenOp opts0 (mount []))).timers,
      t.guard ∈ (visibleOp opts0 [] (hiddenOp opts0 (mount []))).aborted) ∧
    (∀ i, Session.nextId
        (timerFireOp [] i (visibleOp opts0 [] (hiddenOp opts0 (mount [])))) =
      (visibleOp opts0 [] (hiddenOp opts0 (mount []))).nextId) :=
  C4_amended_visibility opts0 [] (mount []) rfl Reachable.mount

/-- Claim C5: calling `start()` twice in immediate succession leaves
exactly one outstanding transport attempt.  The first call stores the
fresh attempt `s.nextId`; the second call aborts it before creating
attempt `s.nextId + 1`, so the first attempt no longer delivers any
callback (each of its callbacks is a no-op), and every created,
non-aborted attempt is the single current one. -/
theorem C5_start_idempotent (opts : UseEventSourceOptions)
    (h0 : List (String × String)) (s : Session)
    (hr : Reachable opts h0 s) :
    (startOp h0 s).current = some s.nextId ∧
    s.nextId ∈ (startOp h0 (startOp h0 s)).aborted ∧
    (startOp h0 (startOp h0 s)).current = some (s.nextId + 1) ∧
    callbackLive (startOp h0 (startOp h0 s)) s.nextId = false ∧
    (∀ k, k < (startOp h0 (startOp h0 s)).nextId →
      k ∉ (startOp h0 (startOp h0 s)).aborted → k = s.nextId + 1) ∧
    (∀ r, onopenOp s.nextId r (startOp h0 (startOp h0 s)) =
      startOp h0 (startOp h0 s)) ∧
    (∀ m, onmessageOp s.nextId m (startOp h0 (startOp h0 s)) =
      startOp h0 (startOp h0 s)) ∧
    (∀ e, onerrorOp opts s.nextId e (startOp h0 (startOp h0 s)) =
      startOp h0 (startOp h0 s)) ∧
    oncloseOp s.nextId (startOp h0 (startOp h0 s)) =
      startOp h0 (startOp h0 s) := by
  have hc1 : (startOp h0 s).current = some s.nextId := startOp_current h0 s
  have hc2 : s.nextId ∈ (startOp h0 (startOp h0 s)).aborted := by
    rw [mem_startOp_aborted]
    exact Or.inr hc1
  have hc3 : (startOp h0 (startOp h0 s)).current = some (s.nextId + 1) := by
    rw [startOp_current, startOp_nextId]
  have hlive : callbackLive (startOp h0 (startOp h0 s)) s.nextId = false := by
    rw [← Bool.not_eq_true, callbackLive_iff]
    rintro ⟨-, hka, -⟩
    exact hka hc2
  have hinv : Inv (startOp h0 (startOp h0 s)) :=
    inv_startOp h0 _ (inv_startOp h0 _ (reachable_inv opts h0 s hr))
  refine ⟨hc1, hc2, hc3, hlive, ?_, ?_, ?_, ?_, ?_⟩
  · intro k hk hka
    have := hinv.2 k hk hka
    rw [hc3] at this
    exact Option.some_injective _ this.symm
  · intro r
    exact onopenOp_not_live _ r _ hlive
  · intro m
    exact onmessageOp_not_live _ m _ hlive
  · intro e
    exact onerrorOp_not_live opts _ e _ hlive
  · exact oncloseOp_not_live _ _ hlive

/-- Witness for C5 at a concrete input. -/
theorem C5_start_witness :
    (startOp [] (mount [])).current = some (mount []).nextId ∧
    (mount []).nextId ∈ (startOp [] (startOp [] (mount []))).aborted ∧
    (startOp [] (startOp [] (mount []))).current =
      some ((mount []).nextId + 1) ∧
    callbackLive (startOp [] (startOp [] (mount []))) (mount []).nextId =
      false ∧
    (∀ k, k < (startOp [] (startOp [] (mount []))).nextId →
      k ∉ (startOp [] (startOp [] (mount []))).aborted →
      k = (mount []).nextId + 1) ∧
    (∀ r, onopenOp (mount []).nextId r (startOp [] (startOp [] (mount []))) =
      startOp [] (startOp [] (mount []))) ∧
    (∀ m, onmessageOp (mount []).nextId m
        (startOp [] (startOp [] (mount []))) =
      startOp [] (startOp [] (mount []))) ∧
    (∀ e, onerrorOp opts0 (mount []).nextId e
        (startOp [] (startOp [] (mount []))) =
      startOp [] (startOp [] (mount []))) ∧
    oncloseOp (mount []).nextId (startOp [] (startOp [] (mount []))) =
      startOp [] (startOp [] (mount [])) :=
  C5_start_idempotent opts0 [] (mount []) Reachable.mount

/-- Claim C6: in every reachable state, `close()` sets the connection
state to CLOSED (2) and leaves every pending backoff timer with an
aborted guard, so a firing timer is inert (it creates no attempt and
the state stays CLOSED); more generally, after `close()` no sequence of
events avoiding `start()`/`reconnect()` (and the visible transition,
whose handler calls `start()`) ever creates a connection attempt or
leaves the CLOSED state. -/
theorem C6_close_cancels_retry (opts : UseEventSourceOptions)
    (h0 : List (String × String)) (s : Session)
    (hr : Reachable opts h0 s) :
    (closeOp s).readyState = 2 ∧
    (∀ t ∈ (closeOp s).timers, t.guard ∈ (closeOp s).aborted) ∧
    (∀ i, (timerFireOp h0 i (closeOp s)).nextId = (closeOp s).nextId ∧
      (timerFireOp h0 i (closeOp s)).readyState = 2) ∧
    (∀ es : List Event, (∀ ev ∈ es, isStartish ev = false) →
      (run opts h0 es (closeOp s)).nextId = (closeOp s).nextId ∧
      (run opts h0 es (closeOp s)).readyState = 2) := by
  obtain ⟨hT, -⟩ := reachable_inv opts h0 s hr
  have hq : Quiescent (closeOp s) := by
    constructor
    · intro t ht
      rw [closeOp_timers] at ht
      rcases hT t ht with hg | hg
      · exact (mem_closeOp_aborted s _).2 (Or.inl hg)
      · exact (mem_closeOp_aborted s _).2 (Or.inr hg)
    · intro k
      rw [← Bool.not_eq_true, callbackLive_iff]
      rintro ⟨hc, hka, -⟩
      rw [closeOp_current] at hc
      exact hka ((mem_closeOp_aborted s _).2 (Or.inr hc))
  refine ⟨closeOp_readyState s, hq.1, ?_, ?_⟩
  · intro i
    obtain ⟨h1, h2, -⟩ := timerFire_inert h0 i (closeOp s) hq.1
    exact ⟨h1, by rw [h2, closeOp_readyState]⟩
  · intro es hall
    obtain ⟨-, hn, hrs⟩ := quiescent_run opts h0 es (closeOp s) hq hall
    refine ⟨hn, ?_⟩
    rcases hrs with h | h
    · rw [h, closeOp_readyState]
    · exact h

/-- Claim C7 fails on the code (code bug): after mount, a successful
open and a message carrying id "42", the session's lastEventId is the
non-empty "42", yet the request built by the `start()` that
`reconnect()` invokes carries no Last-Event-ID header — the memoized
start closure captured the mount-time lastEventId "" (the useCallback
dependency list omits lastEventId), so the resumption header the claim
requires, [("Last-Event-ID", "42")], is not sent. -/
theorem C7_stale_resumption_header :
    Session.lastEventId
      (run opts0 [] [Event.onopenCb 0 "r",
        Event.onmessageCb 0 ⟨some "42", "", "d"⟩, Event.reconnect]
        (mount [])) = "42" ∧
    Session.startCaptured
      (run opts0 [] [Event.onopenCb 0 "r",
        Event.onmessageCb 0 ⟨some "42", "", "d"⟩, Event.reconnect]
        (mount [])) = "" ∧
    Session.lastRequestHeaders
      (run opts0 [] [Event.onopenCb 0 "r",
        Event.onmessageCb 0 ⟨some "42", "", "d"⟩, Event.reconnect]
        (mount [])) = some [] ∧
    buildHeaders [] "42" = [("Last-Event-ID", "42")] := by
  exact ⟨rfl, rfl, rfl, rfl⟩

/-- Claim C8: with no retry policy configured, a transport error on the
live attempt leaves the session CLOSED (2), surfaced through the error
observer and recorded in lastError, with no retry timer pending (none
is ever scheduled without a policy); and permanently: every following
sequence of events that avoids `start()`/`reconnect()` (and the
visible transition, which calls `start()`) creates no connection
attempt and leaves the state CLOSED. -/
theorem C8_no_retry_terminal (opts : UseEventSourceOptions)
    (h0 : List (String × String)) (k : Nat) (e : String) (s : Session)
    (hb : opts.retryIntervalMs = none) (hr : Reachable opts h0 s)
    (hl : callbackLive s k = true) :
    (onerrorOp opts k e s).readyState = 2 ∧
    (onerrorOp opts k e s).timers = [] ∧
    (onerrorOp opts k e s).errorCalls = s.errorCalls ++ [e] ∧
    (onerrorOp opts k e s).error = some e ∧
    (∀ es : List Event, (∀ ev ∈ es, isStartish ev = false) →
      (run opts h0 es (onerrorOp opts k e s)).nextId =
        (onerrorOp opts k e s).nextId ∧
      (run opts h0 es (onerrorOp opts k e s)).readyState = 2) := by
  have heq := onerrorOp_live_none opts k e s hb hl
  have hcur : s.current = some k := ((callbackLive_iff s k).1 hl).1
  have htimers : (onerrorOp opts k e s).timers = [] := by
    rw [heq]
    show s.timers = []
    exact timers_nil_of_no_retry opts h0 s hb hr
  have hq : Quiescent (onerrorOp opts k e s) := by
    constructor
    · intro t ht
      rw [htimers] at ht
      exact absurd ht (List.not_mem_nil t)
    · intro k'
      rw [← Bool.not_eq_true, callbackLive_iff]
      rintro ⟨hc, -, hkd⟩
      rw [heq] at hc hkd
      have hck : s.current = some k' := hc
      have hkd' : k' ∉ k :: s.dead := hkd
      rw [hcur] at hck
      have hkk : k = k' := Option.some_injective _ hck
      exact hkd' (by rw [← hkk]; exact List.mem_cons_self k s.dead)
  refine ⟨by rw [heq], htimers, by rw [heq], by rw [heq], ?_⟩
  intro es hall
  obtain ⟨-, hn, hrs⟩ := quiescent_run opts h0 es _ hq hall
  refine ⟨hn, ?_⟩
  rcases hrs with h | h
  · rw [h, heq]
  · exact h

/-- Witness for C8 at a concrete input. -/
theorem C8_no_retry_witness :
    (onerrorOp optsNoRetry 0 "boom2" (mount [])).readyState = 2 ∧
    (onerrorOp optsNoRetry 0 "boom2" (mount [])).timers = [] ∧
    (onerrorOp optsNoRetry 0 "boom2" (mount [])).errorCalls =
      (mount []).errorCalls ++ ["boom2"] ∧
    (onerrorOp optsNoRetry 0 "boom2" (mount [])).error = some "boom2" ∧
    (∀ es : List Event, (∀ ev ∈ es, isStartish ev = false) →
      (run optsNoRetry [] es (onerrorOp optsNoRetry 0 "boom2" (mount []))).nextId =
        (onerrorOp optsNoRetry 0 "boom2" (mount [])).nextId ∧
      (run optsNoRetry [] es
        (onerrorOp optsNoRetry 0 "boom2" (mount []))).readyState = 2) :=
  C8_no_retry_terminal optsNoRetry [] 0 "boom2" (mount []) rfl
    Reachable.mount (by decide)

/-- Claim C9: a transport open callback on a live attempt sets the
connection state to OPEN (1), resets the retry counter to 0 and invokes
the caller's open observer with the response metadata; and no event
other than an open callback ever resets a non-zero retry counter. -/
theorem C9_open_resets_retry (opts : UseEventSourceOptions)
    (h0 : List (String × String)) (k : Nat) (r : String) (s : Session)
    (hl : callbackLive s k = true) :
    (onopenOp k r s).readyState = 1 ∧
    (onopenOp k r s).retryCount = 0 ∧
    (onopenOp k r s).openCalls = s.openCalls ++ [r] ∧
    (∀ (t : Session) (ev : Event), isOpenCb ev = false →
      t.retryCount ≠ 0 → (step opts h0 ev t).retryCount ≠ 0) := by
  rw [onopenOp_live k r s hl]
  refine ⟨rfl, rfl, rfl, ?_⟩
  intro t ev hev hrc
  cases ev with
  | start =>
      show (startOp h0 t).retryCount ≠ 0
      rw [startOp_retryCount]
      exact hrc
  | reconnect =>
      show (startOp h0 t).retryCount ≠ 0
      rw [startOp_retryCount]
      exact hrc
  | close =>
      show (closeOp t).retryCount ≠ 0
      rw [closeOp_retryCount]
      exact hrc
  | hidden =>
      show (hiddenOp opts t).retryCount ≠ 0
      unfold hiddenOp
      split
      · rw [abortCurrent_retryCount]
        exact hrc
      · exact hrc
  | visible =>
      show (visibleOp opts h0 t).retryCount ≠ 0
      unfold visibleOp
      split
      · rw [startOp_retryCount]
        exact hrc
      · exact hrc
  | onopenCb k' r' => simp [isOpenCb] at hev
  | onmessageCb k' m =>
      show (onmessageOp k' m t).retryCount ≠ 0
      by_cases hl' : callbackLive t k' = true
      · rw [onmessageOp_live k' m t hl']
        exact hrc
      · rw [onmessageOp_not_live k' m t (by simpa using hl')]
        exact hrc
  | onerrorCb k' e =>
      show (onerrorOp opts k' e t).retryCount ≠ 0
      by_cases hl' : callbackLive t k' = true
      · cases hbase : opts.retryIntervalMs with
        | some base =>
            rw [onerrorOp_live_some opts base k' e t hbase hl']
            exact Nat.succ_ne_zero _
        | none =>
            rw [onerrorOp_live_none opts k' e t hbase hl']
            exact hrc
      · rw [onerrorOp_not_live opts k' e t (by simpa using hl')]
        exact hrc
  | oncloseCb k' =>
      show (oncloseOp k' t).retryCount ≠ 0
      by_cases hl' : callbackLive t k' = true
      · rw [oncloseOp_live k' t hl']
        exact hrc
      · rw [oncloseOp_not_live k' t (by simpa using hl')]
        exact hrc
  | timerFire i =>
      show (timerFireOp h0 i t).retryCount ≠ 0
      cases hgi : t.timers.get? i with
      | none =>
          simp only [timerFireOp, hgi]
          exact hrc
      | some tm =>
          simp only [timerFireOp, hgi]
          split
          · exact hrc
          · rw [startOp_retryCount]
            exact hrc

/-- Witness for C9 at a concrete input. -/
theorem C9_open_witness :
    (onopenOp 0 "resp" (mount [])).readyState = 1 ∧
    (onopenOp 0 "resp" (mount [])).retryCount = 0 ∧
    (onopenOp 0 "resp" (mount [])).openCalls =
      (mount []).openCalls ++ ["resp"] ∧
    (∀ (t : Session) (ev : Event), isOpenCb ev = false →
      t.retryCount ≠ 0 → (step opts0 [] ev t).retryCount ≠ 0) :=
  C9_open_resets_retry opts0 [] 0 "resp" (mount []) (by decide)

/-- Claim C10: once lastError has been set by a transport error it is
never cleared: no event other than an error callback changes the error
field at all (in particular a successful open, close(), reconnect() and
the visibility transitions leave it untouched), a live error callback
overwrites it with the new error, and from any state whose error is set
every step leaves it set (either to the same value or to a newer
error). -/
theorem C10_lastError_persistent (opts : UseEventSourceOptions)
    (h0 : List (String × String)) :
    (∀ (s : Session) (ev : Event), isErrorCb ev = false →
      (step opts h0 ev s).error = s.error) ∧
    (∀ (s : Session) (k : Nat) (e : String), callbackLive s k = true →
      (onerrorOp opts k e s).error = some e) ∧
    (∀ (s : Session) (ev : Event) (v : String), s.error = some v →
      (step opts h0 ev s).error = some v ∨
      ∃ k e, ev = Event.onerrorCb k e ∧ (step opts h0 ev s).error = some e) := by
  have herr : ∀ (s : Session) (ev : Event), isErrorCb ev = false →
      (step opts h0 ev s).error = s.error := by
    intro s ev hev
    cases ev with
    | start => exact startOp_error h0 s
    | reconnect => exact startOp_error h0 s
    | close => exact closeOp_error s
    | hidden =>
        show (hiddenOp opts s).error = s.error
        unfold hiddenOp
        split
        · exact abortCurrent_error s
        · rfl
    | visible =>
        show (visibleOp opts h0 s).error = s.error
        unfold visibleOp
        split
        · exact startOp_error h0 s
        · rfl
    | onopenCb k r =>
        show (onopenOp k r s).error = s.error
        by_cases hl : callbackLive s k = true
        · rw [onopenOp_live k r s hl]
        · rw [onopenOp_not_live k r s (by simpa using hl)]
    | onmessageCb k m =>
        show (onmessageOp k m s).error = s.error
        by_cases hl : callbackLive s k = true
        · rw [onmessageOp_live k m s hl]
        · rw [onmessageOp_not_live k m s (by simpa using hl)]
    | onerrorCb k e => simp [isErrorCb] at hev
    | oncloseCb k =>
        show (oncloseOp k s).error = s.error
        by_cases hl : callbackLive s k = true
        · rw [oncloseOp_live k s hl]
        · rw [oncloseOp_not_live k s (by simpa using hl)]
    | timerFire i =>
        show (timerFireOp h0 i s).error = s.error
        cases hgi : s.timers.get? i with
        | none => simp only [timerFireOp, hgi]
        | some t =>
            simp only [timerFireOp, hgi]
            split
            · rfl
            · exact startOp_error h0 _
  have hset : ∀ (s : Session) (k : Nat) (e : String),
      callbackLive s k = true → (onerrorOp opts k e s).error = some e := by
    intro s k e hl
    cases hbase : opts.retryIntervalMs with
    | some base => rw [onerrorOp_live_some opts base k e s hbase hl]
    | none => rw [onerrorOp_live_none opts k e s hbase hl]
  refine ⟨herr, hset, ?_⟩
  intro s ev v hv
  cases ev with
  | onerrorCb k e =>
      by_cases hl : callbackLive s k = true
      · exact Or.inr ⟨k, e, rfl, hset s k e hl⟩
      · left
        show (onerrorOp opts k e s).error = some v
        rw [onerrorOp_not_live opts k e s (by simpa using hl)]
        exact hv
  | start => exact Or.inl ((herr s .start rfl).trans hv)
  | reconnect => exact Or.inl ((herr s .reconnect rfl).trans hv)
  | close => exact Or.inl ((herr s .close rfl).trans hv)
  | hidden => exact Or.inl ((herr s .hidden rfl).trans hv)
  | visible => exact Or.inl ((herr s .visible rfl).trans hv)
  | onopenCb k r => exact Or.inl ((herr s (.onopenCb k r) rfl).trans hv)
  | onmessageCb k m => exact Or.inl ((herr s (.onmessageCb k m) rfl).trans hv)
  | oncloseCb k => exact Or.inl ((herr s (.oncloseCb k) rfl).trans hv)
  | timerFire i => exact Or.inl ((herr s (.timerFire i) rfl).trans hv)

/-- Witness for C10 at a concrete input. -/
theorem C10_lastError_witness :
    (step opts0 [] Event.close (mount [])).error = (mount []).error ∧
    (onerrorOp opts0 1 "x" (startOp [] (mount []))).error = some "x" :=
  ⟨(C10_lastError_persistent opts0 []).1 (mount []) Event.close rfl,
   (C10_lastError_persistent opts0 []).2.1 (startOp [] (mount [])) 1 "x"
     (by decide)⟩

/-- Witness for C6 at a concrete input. -/
theorem C6_close_witness :
    (closeOp (mount [])).readyState = 2 ∧
    (∀ t ∈ (closeOp (mount [])).timers,
      t.guard ∈ (closeOp (mount [])).aborted) ∧
    (∀ i, (timerFireOp [] i (closeOp (mount []))).nextId =
        (closeOp (mount [])).nextId ∧
      (timerFireOp [] i (closeOp (mount []))).readyState = 2) ∧
    (∀ es : List Event, (∀ ev ∈ es, isStartish ev = false) →
      (run opts0 [] es (closeOp (mount []))).nextId =
        (closeOp (mount [])).nextId ∧
      (run opts0 [] es (closeOp (mount []))).readyState = 2) :=
  C6_close_cancels_retry opts0 [] (mount []) Reachable.mount

end ReactEventSource
